import Mathlib

/-!
# Verification of the subscription-request approval workflow (`admin_routes.py`)

Shallow embedding of the admin routes of the TradingGrow backend.  The store is
a pair of lists (users and subscription requests); each HTTP handler becomes a
function from a store and its inputs to a response and a resulting store.
Handlers that can let a Python exception escape (approve/reject, which have no
try/except) return a `HandlerOutcome` that distinguishes a JSON response from
an unhandled exception.

The model layer (`models.py`: `User.get`, `User.update_subscription`,
`SubscriptionRequest.query.get`, `.approve`, `.reject`, `.get_pending`) is not
part of the repository snapshot; those operations are modelled from the
specification, as marked on each definition.  Everything else is translated
directly from `admin_routes.py`.
-/

/-- A user record, as read by the admin routes (`models.User`). -/
structure User where
  id : String
  email : String
  full_name : String
  subscription_tier : String
  is_admin : Bool
deriving Repr, DecidableEq

/-- A subscription-change request record (`models.SubscriptionRequest`).
`created_at` is an abstract timestamp. -/
structure SubscriptionRequest where
  id : String
  user_id : String
  current_tier : String
  requested_tier : String
  status : String
  created_at : Nat
deriving Repr, DecidableEq

/-- The persistent store visible to the admin routes. -/
structure Store where
  users : List User
  requests : List SubscriptionRequest
deriving Repr, DecidableEq

/-- Modelled from the spec: `User.get(user_id)` lives in `models.py`, which is
not in the snapshot; §6 gives the contract `UserDirectory.get(user_id) ->
User | not-found`.  Lookup of a user by identifier. -/
def User.get (s : Store) (uid : String) : Option User :=
  s.users.find? (fun u => u.id == uid)

/-- Modelled from the spec: `SubscriptionRequest.query.get(request_id)` lives in
`models.py` / the ORM; lookup of a request record by identifier. -/
def SubscriptionRequest.queryGet (s : Store) (rid : String) : Option SubscriptionRequest :=
  s.requests.find? (fun r => r.id == rid)

/-- Modelled from the spec: `User.update_subscription(tier)` lives in
`models.py`; §6 describes it as idempotent tier assignment
(`UserDirectory.updateSubscription(user_id, tier)`).  Assigns the given tier
to the user with the given id. -/
def update_subscription (s : Store) (uid : String) (tier : String) : Store :=
  let f := fun u : User =>
    if u.id == uid then { u with subscription_tier := tier } else u
  { s with users := s.users.map f }

/-- Modelled from the spec: `SubscriptionRequest.approve()` lives in
`models.py`; §4.1 gives its effect: sets `status = approved` and applies
`requested_tier` to the referenced user via the UserDirectory tier mutation. -/
def SubscriptionRequest.approveOp (s : Store) (req : SubscriptionRequest) : Store :=
  let f := fun r : SubscriptionRequest =>
    if r.id == req.id then { r with status := "approved" } else r
  let s1 : Store := { s with requests := s.requests.map f }
  update_subscription s1 req.user_id req.requested_tier

/-- Modelled from the spec: `SubscriptionRequest.reject()` lives in
`models.py`; §4.1 gives its effect: sets `status = rejected`, user tier left
unchanged. -/
def SubscriptionRequest.rejectOp (s : Store) (req : SubscriptionRequest) : Store :=
  let f := fun r : SubscriptionRequest =>
    if r.id == req.id then { r with status := "rejected" } else r
  { s with requests := s.requests.map f }

/-- A JSON response together with its HTTP status code. -/
structure Response where
  code : Nat
  success : Bool
  error : Option String
  message : Option String
deriving Repr, DecidableEq

/-- Outcome of a handler that contains no try/except: either a JSON response
with the resulting store, or a Python exception escaping the handler. -/
inductive HandlerOutcome where
  | response (resp : Response) (s : Store)
  | unhandled (exc : String)
deriving Repr, DecidableEq

/-- `approve_subscription_request` (admin_routes.py lines 495-512).
`storeFails` injects the spec's `StoreFailure` at the persistence call
(`request.approve()`); the handler has no try/except, so the exception
escapes.  After approving, the handler reads `user.email` without a None
check, so a missing referenced user raises `AttributeError`. -/
def approve_subscription_request (s : Store) (request_id : String)
    (storeFails : Bool) : HandlerOutcome :=
  match SubscriptionRequest.queryGet s request_id with
  | none =>
    .response { code := 404, success := false, error := some "Request not found",
                message := none } s
  | some req =>
    if req.status != "pending" then
      .response { code := 400, success := false, error := some "Request already processed",
                  message := none } s
    else if storeFails then
      .unhandled "StoreFailure"
    else
      let s1 := SubscriptionRequest.approveOp s req
      match User.get s1 req.user_id with
      | none => .unhandled "AttributeError"
      | some user =>
        .response { code := 200, success := true, error := none,
                    message := some ("Approved " ++ user.email ++ "\x27s upgrade to "
                      ++ req.requested_tier) } s1

/-- `reject_subscription_request` (admin_routes.py lines 514-531).  Same shape
as approve; `request.reject()` leaves the user untouched. -/
def reject_subscription_request (s : Store) (request_id : String)
    (storeFails : Bool) : HandlerOutcome :=
  match SubscriptionRequest.queryGet s request_id with
  | none =>
    .response { code := 404, success := false, error := some "Request not found",
                message := none } s
  | some req =>
    if req.status != "pending" then
      .response { code := 400, success := false, error := some "Request already processed",
                  message := none } s
    else if storeFails then
      .unhandled "StoreFailure"
    else
      let s1 := SubscriptionRequest.rejectOp s req
      match User.get s1 req.user_id with
      | none => .unhandled "AttributeError"
      | some user =>
        .response { code := 200, success := true, error := none,
                    message := some ("Rejected " ++ user.email ++ "\x27s upgrade request") } s1

/-- The tier whitelist checked by `update_user_subscription`:
`['free', 'medium', 'pro']`. -/
def validTier (t : String) : Bool :=
  t == "free" || t == "medium" || t == "pro"

/-- `update_user_subscription` (admin_routes.py lines 138-153).  `tier` is
`data.get('tier')`, which may be absent (`none`). -/
def update_user_subscription (s : Store) (user_id : String)
    (tier : Option String) : Response × Store :=
  if user_id == "" || !(match tier with | some t => validTier t | none => false) then
    ({ code := 400, success := false, error := some "Invalid data", message := none }, s)
  else
    match User.get s user_id with
    | none => ({ code := 404, success := false, error := some "User not found",
                 message := none }, s)
    | some user =>
      let t := tier.getD ""
      ({ code := 200, success := true, error := none,
         message := some ("Updated " ++ user.email ++ " to " ++ t ++ " tier") },
       update_subscription s user_id t)

/-- `add_user_subscription` (admin_routes.py lines 177-189).  Note: no tier
validation; `data.get('tier', 'medium')` defaults to `"medium"`. -/
def add_user_subscription (s : Store) (user_id : String)
    (tier : Option String) : Response × Store :=
  let subscription_tier := tier.getD "medium"
  match User.get s user_id with
  | none => ({ code := 404, success := false, error := some "User not found",
               message := none }, s)
  | some user =>
    ({ code := 200, success := true, error := none,
       message := some ("Added " ++ subscription_tier ++ " subscription to " ++ user.email) },
     update_subscription s user_id subscription_tier)

/-- `remove_user_subscription` (admin_routes.py lines 191-200): always assigns
`'free'`. -/
def remove_user_subscription (s : Store) (user_id : String) : Response × Store :=
  match User.get s user_id with
  | none => ({ code := 404, success := false, error := some "User not found",
               message := none }, s)
  | some user =>
    ({ code := 200, success := true, error := none,
       message := some ("Removed subscription from " ++ user.email ++ " (now free tier)") },
     update_subscription s user_id "free")

/-- `delete_user` (admin_routes.py lines 155-175).  The delete is wrapped in
try/except with rollback; `storeFails` injects a failure of the commit, in
which case the session is rolled back (store unchanged) and a 500 with the
error message is returned. -/
def delete_user (s : Store) (user_id : String) (storeFails : Bool) : Response × Store :=
  match User.get s user_id with
  | none => ({ code := 404, success := false, error := some "User not found",
               message := none }, s)
  | some user =>
    if user.is_admin then
      ({ code := 403, success := false, error := some "Cannot delete admin users",
         message := none }, s)
    else if storeFails then
      ({ code := 500, success := false, error := some "StoreFailure", message := none }, s)
    else
      ({ code := 200, success := true, error := none,
         message := some ("Deleted user " ++ user.email) },
       { s with users := s.users.filter (fun u => u.id != user.id) })

/-- Modelled from the spec: `SubscriptionRequest.get_pending()` lives in
`models.py`; §4.1/§8 say it returns all requests with `status == pending`,
ordered by creation time ascending. -/
def get_pending (s : Store) : List SubscriptionRequest :=
  List.insertionSort (fun a b => a.created_at ≤ b.created_at)
    (s.requests.filter (fun r => r.status == "pending"))

/-- One row of the dashboard's `requests_data` listing. -/
structure RequestRow where
  id : String
  user_email : String
  user_name : String
  current_tier : String
  requested_tier : String
  created_at : Nat
  status : String
deriving Repr, DecidableEq

/-- The row built for one pending request by the dashboard loop
(admin_routes.py lines 100-110): user display fields fall back to
`'Unknown'` when `User.get` returns nothing. -/
def rowOf (s : Store) (req : SubscriptionRequest) : RequestRow :=
  { id := req.id
    user_email := match User.get s req.user_id with
      | some u => u.email
      | none => "Unknown"
    user_name := match User.get s req.user_id with
      | some u => u.full_name
      | none => "Unknown"
    current_tier := req.current_tier
    requested_tier := req.requested_tier
    created_at := req.created_at
    status := req.status }

/-- The pending-request listing embedded in the dashboard payload
(`requests_data`, admin_routes.py lines 97-110). -/
def dashboard_requests_data (s : Store) : List RequestRow :=
  (get_pending s).map (rowOf s)

/-! ## Response constants used by the handlers -/

/-- The 404 body `{'error': 'Request not found'}`. -/
def requestNotFoundResp : Response :=
  { code := 404, success := false, error := some "Request not found", message := none }

/-- The 400 body `{'error': 'Request already processed'}`. -/
def alreadyProcessedResp : Response :=
  { code := 400, success := false, error := some "Request already processed", message := none }

/-- The 404 body `{'error': 'User not found'}`. -/
def userNotFoundResp : Response :=
  { code := 404, success := false, error := some "User not found", message := none }

/-- The 400 body `{'error': 'Invalid data'}`. -/
def invalidDataResp : Response :=
  { code := 400, success := false, error := some "Invalid data", message := none }

/-! ## Concrete fixtures -/

/-- A concrete non-admin user on the free tier. -/
def sampleUser : User :=
  { id := "u1", email := "u1@example.com", full_name := "User One",
    subscription_tier := "free", is_admin := false }

/-- A concrete pending upgrade request referencing `sampleUser`. -/
def sampleRequest : SubscriptionRequest :=
  { id := "r1", user_id := "u1", current_tier := "free", requested_tier := "pro",
    status := "pending", created_at := 1 }

/-- A store holding `sampleUser` and the pending `sampleRequest`. -/
def sampleStore : Store := { users := [sampleUser], requests := [sampleRequest] }

/-- The same store after `sampleRequest` has been approved. -/
def processedStore : Store :=
  { users := [sampleUser], requests := [{ sampleRequest with status := "approved" }] }


/-- The 403 body `{'error': 'Cannot delete admin users'}`. -/
def cannotDeleteAdminResp : Response :=
  { code := 403, success := false, error := some "Cannot delete admin users", message := none }

/-- An admin user, used to exercise `delete_user`. -/
def adminUser : User :=
  { id := "a1", email := "admin@example.com", full_name := "Admin One",
    subscription_tier := "pro", is_admin := true }

/-- A store holding an admin next to a regular user. -/
def adminStore : Store := { users := [adminUser, sampleUser], requests := [] }

/-- A store whose only request references a user id that matches no user. -/
def ghostStore : Store :=
  { users := [], requests := [{ sampleRequest with id := "r2", user_id := "ghost" }] }

/-- A store with two pending requests listed out of creation order, one
processed request, and one pending request whose user is missing. -/
def dashStore : Store :=
  { users := [sampleUser],
    requests := [{ sampleRequest with id := "r3", created_at := 5, user_id := "ghost" },
                 sampleRequest,
                 { sampleRequest with id := "r2", status := "approved", created_at := 0 }] }

/-- Every user in the store carries a tier from the whitelist. -/
def storeTiersValid (s : Store) : Bool :=
  s.users.all (fun u => validTier u.subscription_tier)

instance : IsTotal SubscriptionRequest (fun a b => a.created_at ≤ b.created_at) :=
  ⟨fun a b => Nat.le_total a.created_at b.created_at⟩

instance : IsTrans SubscriptionRequest (fun a b => a.created_at ≤ b.created_at) :=
  ⟨fun _ _ _ h1 h2 => Nat.le_trans h1 h2⟩

/-! ## Helper lemmas -/

/-- `find?` commutes with a `map` that does not change the tested key. -/
theorem find?_map_keyed {α : Type} (f : α → α) (p : α → Bool)
    (hf : ∀ x, p (f x) = p x) (l : List α) :
    (l.map f).find? p = (l.find? p).map f := by
  induction l with
  | nil => rfl
  | cons x xs ih =>
    rw [List.map_cons]
    by_cases hx : p x = true
    · have hfx : p (f x) = true := by rw [hf]; exact hx
      rw [List.find?_cons_of_pos _ hfx, List.find?_cons_of_pos _ hx]
      rfl
    · have hfx : ¬ p (f x) = true := by rw [hf]; exact hx
      rw [List.find?_cons_of_neg _ hfx, List.find?_cons_of_neg _ hx, ih]

/-- Assigning a tier rewrites exactly the matching users, as `find?` sees it. -/
theorem get_update_subscription (s : Store) (uid target t : String) :
    User.get (update_subscription s uid t) target =
      (User.get s target).map
        (fun u => if u.id == uid then { u with subscription_tier := t } else u) := by
  unfold User.get update_subscription
  apply find?_map_keyed
  intro u
  by_cases h : u.id == uid
  · simp [h]
  · simp [h]

/-- A request-side update leaves user lookup untouched. -/
theorem get_requests_update (s : Store) (rs : List SubscriptionRequest) (uid : String) :
    User.get { s with requests := rs } uid = User.get s uid := rfl

/-- A user-side update leaves request lookup untouched. -/
theorem queryGet_update_subscription (s : Store) (uid t rid : String) :
    SubscriptionRequest.queryGet (update_subscription s uid t) rid =
      SubscriptionRequest.queryGet s rid := rfl

/-- What `approveOp` does to the approved request, as `queryGet` sees it. -/
theorem queryGet_approveOp (s : Store) (req : SubscriptionRequest) (rid : String) :
    SubscriptionRequest.queryGet (SubscriptionRequest.approveOp s req) rid =
      (SubscriptionRequest.queryGet s rid).map
        (fun r => if r.id == req.id then { r with status := "approved" } else r) := by
  unfold SubscriptionRequest.approveOp SubscriptionRequest.queryGet update_subscription
  apply find?_map_keyed
  intro r
  by_cases h : r.id == req.id
  · simp [h]
  · simp [h]

/-- What `approveOp` does to the referenced user, as `User.get` sees it. -/
theorem get_approveOp (s : Store) (req : SubscriptionRequest) (uid : String) :
    User.get (SubscriptionRequest.approveOp s req) uid =
      (User.get s uid).map
        (fun u => if u.id == req.user_id then
          { u with subscription_tier := req.requested_tier } else u) := by
  unfold SubscriptionRequest.approveOp
  rw [get_update_subscription]
  rfl

/-- What `rejectOp` does to the rejected request, as `queryGet` sees it. -/
theorem queryGet_rejectOp (s : Store) (req : SubscriptionRequest) (rid : String) :
    SubscriptionRequest.queryGet (SubscriptionRequest.rejectOp s req) rid =
      (SubscriptionRequest.queryGet s rid).map
        (fun r => if r.id == req.id then { r with status := "rejected" } else r) := by
  unfold SubscriptionRequest.rejectOp SubscriptionRequest.queryGet
  apply find?_map_keyed
  intro r
  by_cases h : r.id == req.id
  · simp [h]
  · simp [h]

/-- `rejectOp` never touches users. -/
theorem get_rejectOp (s : Store) (req : SubscriptionRequest) (uid : String) :
    User.get (SubscriptionRequest.rejectOp s req) uid = User.get s uid := rfl


/-! ## Claims -/

/-- C1: for every request that exists with status `pending` (and whose
referenced user exists, as the tier conclusion presupposes), approve answers
200, sets the request status to `approved`, and the user's subscription tier
afterward equals `requested_tier`. -/
theorem approve_pending_applies_requested_tier (s : Store) (rid : String)
    (req : SubscriptionRequest) (u : User)
    (hreq : SubscriptionRequest.queryGet s rid = some req)
    (hp : req.status = "pending")
    (hu : User.get s req.user_id = some u) :
    ∃ resp s2,
      approve_subscription_request s rid false = HandlerOutcome.response resp s2 ∧
      resp.code = 200 ∧ resp.success = true ∧
      SubscriptionRequest.queryGet s2 rid = some { req with status := "approved" } ∧
      User.get s2 req.user_id = some { u with subscription_tier := req.requested_tier } := by
  have hu' : s.users.find? (fun v => v.id == req.user_id) = some u := hu
  have hid : (req.id == req.id) = true := by simp
  have huid : u.id = req.user_id := by
    simpa using List.find?_some hu'
  have hget : User.get (SubscriptionRequest.approveOp s req) req.user_id =
      some { u with subscription_tier := req.requested_tier } := by
    rw [get_approveOp, hu]
    simp [huid]
  have hqg : SubscriptionRequest.queryGet (SubscriptionRequest.approveOp s req) rid =
      some { req with status := "approved" } := by
    rw [queryGet_approveOp, hreq]
    simp [hid]
  refine ⟨{ code := 200, success := true, error := none,
            message := some ("Approved " ++ u.email ++ "\x27s upgrade to "
              ++ req.requested_tier) },
          SubscriptionRequest.approveOp s req, ?_, rfl, rfl, hqg, hget⟩
  simp [approve_subscription_request, hreq, hp, hget]

/-- C2: once a request's status is terminal (`approved` or `rejected`), both
approve and reject answer 400 `Request already processed` and return the store
unchanged, so neither the request's status nor any user's tier moves. -/
theorem processed_request_immutable (s : Store) (rid : String)
    (req : SubscriptionRequest) (b : Bool)
    (hreq : SubscriptionRequest.queryGet s rid = some req)
    (ht : req.status = "approved" ∨ req.status = "rejected") :
    approve_subscription_request s rid b = HandlerOutcome.response alreadyProcessedResp s ∧
    reject_subscription_request s rid b = HandlerOutcome.response alreadyProcessedResp s := by
  have hnp : (req.status != "pending") = true := by
    rcases ht with h | h <;> rw [h] <;> rfl
  constructor
  · simp [approve_subscription_request, hreq, hnp, alreadyProcessedResp]
  · simp [reject_subscription_request, hreq, hnp, alreadyProcessedResp]

/-- C3: for every request that exists with status `pending` and whose
referenced user exists, reject answers 200, sets the request status to
`rejected`, and leaves the user record (so the tier held before the call)
unchanged. -/
theorem reject_pending_leaves_tier (s : Store) (rid : String)
    (req : SubscriptionRequest) (u : User)
    (hreq : SubscriptionRequest.queryGet s rid = some req)
    (hp : req.status = "pending")
    (hu : User.get s req.user_id = some u) :
    ∃ resp s2,
      reject_subscription_request s rid false = HandlerOutcome.response resp s2 ∧
      resp.code = 200 ∧ resp.success = true ∧
      SubscriptionRequest.queryGet s2 rid = some { req with status := "rejected" } ∧
      User.get s2 req.user_id = some u := by
  have hid : (req.id == req.id) = true := by simp
  have hget : User.get (SubscriptionRequest.rejectOp s req) req.user_id = some u := by
    rw [get_rejectOp]; exact hu
  have hqg : SubscriptionRequest.queryGet (SubscriptionRequest.rejectOp s req) rid =
      some { req with status := "rejected" } := by
    rw [queryGet_rejectOp, hreq]
    simp [hid]
  refine ⟨{ code := 200, success := true, error := none,
            message := some ("Rejected " ++ u.email ++ "\x27s upgrade request") },
          SubscriptionRequest.rejectOp s req, ?_, rfl, rfl, hqg, hget⟩
  simp [reject_subscription_request, hreq, hp, hget]

/-- C4: approve and reject on an id that matches no request answer 404
`Request not found` and return the store unchanged. -/
theorem missing_request_not_found (s : Store) (rid : String) (b : Bool)
    (h : SubscriptionRequest.queryGet s rid = none) :
    approve_subscription_request s rid b = HandlerOutcome.response requestNotFoundResp s ∧
    reject_subscription_request s rid b = HandlerOutcome.response requestNotFoundResp s := by
  constructor
  · simp [approve_subscription_request, h, requestNotFoundResp]
  · simp [reject_subscription_request, h, requestNotFoundResp]

/-- Witness for C1 at the concrete `sampleStore`. -/
theorem approve_pending_applies_requested_tier_witness :
    ∃ resp s2,
      approve_subscription_request sampleStore "r1" false = HandlerOutcome.response resp s2 ∧
      resp.code = 200 ∧ resp.success = true ∧
      SubscriptionRequest.queryGet s2 "r1" = some { sampleRequest with status := "approved" } ∧
      User.get s2 sampleRequest.user_id =
        some { sampleUser with subscription_tier := sampleRequest.requested_tier } :=
  approve_pending_applies_requested_tier sampleStore "r1" sampleRequest sampleUser
    (by decide) (by decide) (by decide)

/-- Witness for C2 at the concrete `processedStore`. -/
theorem processed_request_immutable_witness :
    approve_subscription_request processedStore "r1" false =
      HandlerOutcome.response alreadyProcessedResp processedStore ∧
    reject_subscription_request processedStore "r1" false =
      HandlerOutcome.response alreadyProcessedResp processedStore :=
  processed_request_immutable processedStore "r1"
    { sampleRequest with status := "approved" } false (by decide) (Or.inl (by decide))

/-- Witness for C3 at the concrete `sampleStore`. -/
theorem reject_pending_leaves_tier_witness :
    ∃ resp s2,
      reject_subscription_request sampleStore "r1" false = HandlerOutcome.response resp s2 ∧
      resp.code = 200 ∧ resp.success = true ∧
      SubscriptionRequest.queryGet s2 "r1" = some { sampleRequest with status := "rejected" } ∧
      User.get s2 sampleRequest.user_id = some sampleUser :=
  reject_pending_leaves_tier sampleStore "r1" sampleRequest sampleUser
    (by decide) (by decide) (by decide)

/-- Witness for C4 at the concrete `sampleStore` and an unknown id. -/
theorem missing_request_not_found_witness :
    approve_subscription_request sampleStore "nonexistent" false =
      HandlerOutcome.response requestNotFoundResp sampleStore ∧
    reject_subscription_request sampleStore "nonexistent" false =
      HandlerOutcome.response requestNotFoundResp sampleStore :=
  missing_request_not_found sampleStore "nonexistent" false (by decide)

/-- Assigning a whitelisted tier keeps every stored tier whitelisted. -/
theorem update_subscription_tiersValid (s : Store) (uid tt : String)
    (hs : storeTiersValid s = true) (ht : validTier tt = true) :
    storeTiersValid (update_subscription s uid tt) = true := by
  rw [storeTiersValid, List.all_eq_true] at hs ⊢
  intro u hu
  simp only [update_subscription, List.mem_map] at hu
  obtain ⟨v, hv, hfv⟩ := hu
  by_cases h : (v.id == uid) = true
  · rw [if_pos h] at hfv
    rw [← hfv]
    exact ht
  · rw [if_neg h] at hfv
    rw [← hfv]
    exact hs v hv

/-- C7 (code bug): when the persistence call inside approve or reject fails on
a pending request, the handler produces no response at all — the exception
escapes, since unlike `delete_user` these handlers have no try/except, hence
no rollback and no 500 body carrying the error message. -/
theorem store_failure_escapes_unhandled :
    approve_subscription_request sampleStore "r1" true =
      HandlerOutcome.unhandled "StoreFailure" ∧
    reject_subscription_request sampleStore "r1" true =
      HandlerOutcome.unhandled "StoreFailure" := by
  constructor
  · rfl
  · rfl

/-- C8 (counterexample): approving a pending request whose referenced user is
absent does not answer `NotFound`; the handler reads `user.email` off the
missing user and the `AttributeError` escapes unhandled. -/
theorem approve_missing_user_unhandled :
    approve_subscription_request ghostStore "r2" false =
      HandlerOutcome.unhandled "AttributeError" ∧
    reject_subscription_request ghostStore "r2" false =
      HandlerOutcome.unhandled "AttributeError" := by
  constructor
  · rfl
  · rfl

/-- C8 (amended): when the pending request's referenced user exists, approve
answers a success payload carrying the user's email and the newly applied
tier, and reject answers a success payload carrying the user's email. -/
theorem approve_reject_success_payload (s : Store) (rid : String)
    (req : SubscriptionRequest) (u : User)
    (hreq : SubscriptionRequest.queryGet s rid = some req)
    (hp : req.status = "pending")
    (hu : User.get s req.user_id = some u) :
    approve_subscription_request s rid false =
      HandlerOutcome.response
        { code := 200, success := true, error := none,
          message := some ("Approved " ++ u.email ++ "\x27s upgrade to "
            ++ req.requested_tier) }
        (SubscriptionRequest.approveOp s req) ∧
    reject_subscription_request s rid false =
      HandlerOutcome.response
        { code := 200, success := true, error := none,
          message := some ("Rejected " ++ u.email ++ "\x27s upgrade request") }
        (SubscriptionRequest.rejectOp s req) := by
  have hu' : s.users.find? (fun v => v.id == req.user_id) = some u := hu
  have huid : u.id = req.user_id := by
    simpa using List.find?_some hu'
  have hgetA : User.get (SubscriptionRequest.approveOp s req) req.user_id =
      some { u with subscription_tier := req.requested_tier } := by
    rw [get_approveOp, hu]
    simp [huid]
  have hgetR : User.get (SubscriptionRequest.rejectOp s req) req.user_id = some u := by
    rw [get_rejectOp]; exact hu
  constructor
  · simp [approve_subscription_request, hreq, hp, hgetA]
  · simp [reject_subscription_request, hreq, hp, hgetR]

/-- Witness for the amended C8 at the concrete `sampleStore`. -/
theorem approve_reject_success_payload_witness :
    approve_subscription_request sampleStore "r1" false =
      HandlerOutcome.response
        { code := 200, success := true, error := none,
          message := some ("Approved " ++ sampleUser.email ++ "\x27s upgrade to "
            ++ sampleRequest.requested_tier) }
        (SubscriptionRequest.approveOp sampleStore sampleRequest) ∧
    reject_subscription_request sampleStore "r1" false =
      HandlerOutcome.response
        { code := 200, success := true, error := none,
          message := some ("Rejected " ++ sampleUser.email ++ "\x27s upgrade request") }
        (SubscriptionRequest.rejectOp sampleStore sampleRequest) :=
  approve_reject_success_payload sampleStore "r1" sampleRequest sampleUser
    (by decide) (by decide) (by decide)

/-- C9 (counterexample): `add_user_subscription` performs no tier validation:
asked for the out-of-whitelist tier `platinum`, it answers 200 and stores
`platinum` as the user's subscription tier. -/
theorem add_user_subscription_no_validation :
    validTier "platinum" = false ∧
    (add_user_subscription sampleStore "u1" (some "platinum")).1.code = 200 ∧
    User.get (add_user_subscription sampleStore "u1" (some "platinum")).2 "u1" =
      some { sampleUser with subscription_tier := "platinum" } := by
  refine ⟨rfl, rfl, ?_⟩
  rfl

/-- C9 (amended): `update_user_subscription` rejects any tier outside
`{free, medium, pro}` with 400 `Invalid data` and an unchanged store, and
both it and `remove_user_subscription` preserve the tier whitelist across the
whole store; `add_user_subscription` is not included, as it validates
nothing. -/
theorem tier_whitelist_partially_enforced (s : Store) (uid : String)
    (t : Option String) (tbad : String)
    (hs : storeTiersValid s = true) (hbad : validTier tbad = false) :
    storeTiersValid (update_user_subscription s uid t).2 = true ∧
    storeTiersValid (remove_user_subscription s uid).2 = true ∧
    update_user_subscription s uid (some tbad) = (invalidDataResp, s) := by
  refine ⟨?_, ?_, ?_⟩
  · by_cases hcond :
        (uid == "" || !(match t with | some tt => validTier tt | none => false)) = true
    · simp only [update_user_subscription, hcond, if_true]
      exact hs
    · cases t with
      | none => exact absurd (by simp) hcond
      | some tt =>
        have htt : validTier tt = true := by
          by_contra hno
          exact hcond (by simp [Bool.not_eq_true] at hno ⊢; simp [hno])
        cases hg : User.get s uid with
        | none => simp only [update_user_subscription, hcond, if_false, hg]; exact hs
        | some user =>
          simp only [update_user_subscription, hcond, if_false, hg]
          simpa using update_subscription_tiersValid s uid tt hs htt
  · cases hg : User.get s uid with
    | none => simp only [remove_user_subscription, hg]; exact hs
    | some user =>
      simp only [remove_user_subscription, hg]
      exact update_subscription_tiersValid s uid "free" hs rfl
  · have hcond :
        (uid == "" || !(match (some tbad : Option String) with
          | some tt => validTier tt | none => false)) = true := by
      simp [hbad]
    simp [update_user_subscription, hcond, invalidDataResp]

/-- Witness for the amended C9 at the concrete `sampleStore`. -/
theorem tier_whitelist_partially_enforced_witness :
    storeTiersValid (update_user_subscription sampleStore "u1" (some "pro")).2 = true ∧
    storeTiersValid (remove_user_subscription sampleStore "u1").2 = true ∧
    update_user_subscription sampleStore "u1" (some "platinum") =
      (invalidDataResp, sampleStore) :=
  tier_whitelist_partially_enforced sampleStore "u1" (some "pro") "platinum"
    (by decide) (by decide)

/-- C10: deleting a user that resolves to an admin answers 403
`Cannot delete admin users` and returns the store unchanged, whether or not
the persistence layer would have failed. -/
theorem delete_admin_forbidden (s : Store) (uid : String) (u : User) (b : Bool)
    (hu : User.get s uid = some u) (ha : u.is_admin = true) :
    delete_user s uid b = (cannotDeleteAdminResp, s) := by
  simp [delete_user, hu, ha, cannotDeleteAdminResp]

/-- Witness for C10 at the concrete `adminStore`. -/
theorem delete_admin_forbidden_witness :
    delete_user adminStore "a1" false = (cannotDeleteAdminResp, adminStore) :=
  delete_admin_forbidden adminStore "a1" adminUser false (by decide) (by decide)

/-- C5: the dashboard listing consists of exactly one row per pending request
(sound and complete), is ordered by creation time ascending, and any listed
request whose referenced user cannot be found carries the sentinel `Unknown`
in both user display fields instead of failing the listing. -/
theorem dashboard_lists_pending_sorted (s : Store) :
    (∀ row ∈ dashboard_requests_data s, ∃ req,
        req ∈ s.requests ∧ req.status = "pending" ∧ row = rowOf s req) ∧
    (∀ req ∈ s.requests, req.status = "pending" →
        rowOf s req ∈ dashboard_requests_data s) ∧
    List.Sorted (fun a b : RequestRow => a.created_at ≤ b.created_at)
      (dashboard_requests_data s) ∧
    (∀ req ∈ get_pending s, User.get s req.user_id = none →
        (rowOf s req).user_email = "Unknown" ∧ (rowOf s req).user_name = "Unknown") := by
  refine ⟨?_, ?_, ?_, ?_⟩
  · intro row hrow
    simp only [dashboard_requests_data, List.mem_map] at hrow
    obtain ⟨req, hreq, hrfl⟩ := hrow
    rw [get_pending, List.mem_insertionSort, List.mem_filter] at hreq
    exact ⟨req, hreq.1, by simpa using hreq.2, hrfl.symm⟩
  · intro req hreq hp
    simp only [dashboard_requests_data, List.mem_map]
    refine ⟨req, ?_, rfl⟩
    rw [get_pending, List.mem_insertionSort, List.mem_filter]
    exact ⟨hreq, by simp [hp]⟩
  · rw [dashboard_requests_data, get_pending]
    have hsorted := List.sorted_insertionSort
      (fun a b : SubscriptionRequest => a.created_at ≤ b.created_at)
      (s.requests.filter (fun r => r.status == "pending"))
    exact List.pairwise_map.mpr (List.Pairwise.imp (fun h => h) hsorted)
  · intro req _ hnone
    constructor
    · simp [rowOf, hnone]
    · simp [rowOf, hnone]

/-- Witness for C5 at the concrete `dashStore`. -/
theorem dashboard_lists_pending_sorted_witness :
    (∀ row ∈ dashboard_requests_data dashStore, ∃ req,
        req ∈ dashStore.requests ∧ req.status = "pending" ∧ row = rowOf dashStore req) ∧
    (∀ req ∈ dashStore.requests, req.status = "pending" →
        rowOf dashStore req ∈ dashboard_requests_data dashStore) ∧
    List.Sorted (fun a b : RequestRow => a.created_at ≤ b.created_at)
      (dashboard_requests_data dashStore) ∧
    (∀ req ∈ get_pending dashStore, User.get dashStore req.user_id = none →
        (rowOf dashStore req).user_email = "Unknown" ∧
        (rowOf dashStore req).user_name = "Unknown") :=
  dashboard_lists_pending_sorted dashStore
